import Mathlib

/-!
Shallow embedding of the ykvc utility (a Rust command-line tool that programs
a YubiKey slot-2 HMAC-SHA1 secret, derives challenge responses, writes a
permission-hardened keyfile and securely deletes it) together with proofs
about its device orchestration and keyfile lifecycle.

External effects are modelled as explicit inputs: every embedded operation
takes the observable outcome of each external interaction it performs
(subprocess exit status and captured output, filesystem existence, random
bytes, the clock) and returns its result together with any state it leaves
behind (the list of subprocess invocations it issued, the final file state).
Byte sequences are `List Nat`; tool output is `String`.
-/

namespace Ykvc

/-- ASCII lower-casing of one character, as applied by `to_lowercase` to the
ASCII tool output handled in src/yubikey.rs. -/
def lcChar (c : Char) : Char :=
  if 'A' ≤ c ∧ c ≤ 'Z' then Char.ofNat (c.toNat + 32) else c

/-- Lower-case every character of a string. -/
def toLowerStr (s : String) : String :=
  String.mk (s.data.map lcChar)

/-- Whitespace test for the characters stripped by `str::trim` on the ASCII
output handled here. -/
def isWS (c : Char) : Bool :=
  c == ' ' || c == '\t' || c == '\n' || c == '\r'

/-- Strip leading and trailing whitespace from a character list. -/
def trimChars (l : List Char) : List Char :=
  ((l.dropWhile isWS).reverse.dropWhile isWS).reverse

/-- `str::trim`: strip surrounding whitespace. -/
def trimStr (s : String) : String :=
  String.mk (trimChars s.data)

/-- Does the first list occur at the head of the second? -/
def isPrefixL : List Char → List Char → Bool
  | [], _ => true
  | _ :: _, [] => false
  | p :: ps, c :: cs => p == c && isPrefixL ps cs

/-- Substring occurrence over character lists, the semantics of
`str::contains` for the non-empty literal patterns used by the source. -/
def containsSubL : List Char → List Char → Bool
  | [], pat => pat.isEmpty
  | c :: t, pat => isPrefixL pat (c :: t) || containsSubL t pat

/-- `str::contains` with a string pattern. -/
def containsSubstr (s pat : String) : Bool :=
  containsSubL s.data pat.data

/-- Split a character list at every occurrence of a separator character,
the semantics of `str::split` with a `char` pattern. -/
def splitOnChar (sep : Char) : List Char → List (List Char)
  | [] => [[]]
  | c :: t =>
    match splitOnChar sep t with
    | [] => [[c]]
    | h :: rest => if c == sep then [] :: h :: rest else (c :: h) :: rest

/-- Remove one trailing carriage return, as `str::lines` does per line. -/
def dropLastCR (l : List Char) : List Char :=
  match l.reverse with
  | '\r' :: rest => rest.reverse
  | _ => l

/-- `str::lines`: split on newline, treat a final line ending as optional
(drop the single trailing empty piece a final newline produces), and strip
one trailing carriage return from each line. -/
def rustLines (s : String) : List String :=
  let parts := splitOnChar '\n' s.data
  let parts :=
    match parts.reverse with
    | [] :: rest => rest.reverse
    | _ => parts
  parts.map (fun l => String.mk (dropLastCR l))

/-- Numeric value of one hexadecimal digit, as accepted by `hex::decode`. -/
def hexVal (c : Char) : Option Nat :=
  if '0' ≤ c ∧ c ≤ '9' then some (c.toNat - '0'.toNat)
  else if 'a' ≤ c ∧ c ≤ 'f' then some (c.toNat - 'a'.toNat + 10)
  else if 'A' ≤ c ∧ c ≤ 'F' then some (c.toNat - 'A'.toNat + 10)
  else none

/-- Is the character a hexadecimal digit? -/
def isHexChar (c : Char) : Bool :=
  (hexVal c).isSome

/-- `hex::decode` over a character list: two digits per byte, failing on an
odd-length input or on any non-hex character. -/
def hexDecodeList : List Char → Option (List Nat)
  | [] => some []
  | [_] => none
  | c₁ :: c₂ :: rest =>
    match hexVal c₁ with
    | none => none
    | some hi =>
      match hexVal c₂ with
      | none => none
      | some lo =>
        match hexDecodeList rest with
        | none => none
        | some bs => some ((hi * 16 + lo) :: bs)

/-- `hex::decode` on a string. -/
def hexDecode (s : String) : Option (List Nat) :=
  hexDecodeList s.data

/-- Lower-case hexadecimal digit of a nibble, as emitted by `hex::encode`. -/
def hexDigitChar (n : Nat) : Char :=
  if n < 10 then Char.ofNat ('0'.toNat + n) else Char.ofNat ('a'.toNat + (n - 10))

/-- Character stream of `hex::encode`: two lower-case digits per byte. -/
def hexEncodeChars : List Nat → List Char
  | [] => []
  | b :: rest => hexDigitChar (b / 16 % 16) :: hexDigitChar (b % 16) :: hexEncodeChars rest

/-- `hex::encode` on a byte list. -/
def hexEncode (bs : List Nat) : String :=
  String.mk (hexEncodeChars bs)

/-- The closed error taxonomy of src/error.rs (`YkvcError`).  The wrapped
OS error of the `Io` variant is carried as its rendered message. -/
inductive YkvcError where
  | YubiKeyNotFound
  | Slot2NotProgrammed
  | DependencyMissing (name : String)
  | CommandFailed (command : String) (message : String)
  | InstallationFailed (msg : String)
  | InvalidHex (msg : String)
  | InvalidSecretLength (len : Nat)
  | YkmanFailed (msg : String)
  | YkpersonalizeFailed (msg : String)
  | YkchalrespFailed (msg : String)
  | FileError (msg : String)
  | Io (msg : String)
  | UnsupportedOS (msg : String)
  | Cancelled
  | Other (msg : String)
deriving DecidableEq, Repr

/-- Captured output of a finished subprocess: whether the exit status was
success, plus the decoded standard output and standard error text. -/
structure ProcOut where
  statusOk : Bool
  stdout : String
  stderr : String
deriving DecidableEq, Repr

/-- Outcome of attempting to run a subprocess: either the process could not
be executed at all (spawn or wait failed, carrying the OS error text), or it
ran to completion with captured output. -/
inductive RunResult where
  | execErr (msg : String)
  | ran (out : ProcOut)
deriving DecidableEq, Repr

/-- A subprocess invocation issued by an operation: the program name and its
argument list, recorded in order. -/
structure Invocation where
  program : String
  args : List String
deriving DecidableEq, Repr

/-- Device information parsed by `check_yubikey` (src/yubikey.rs,
struct `YubiKeyInfo`). -/
structure YubiKeyInfo where
  serial : String
  firmware_version : String
  slot2_programmed : Bool
deriving DecidableEq, Repr

/-- The field extraction of `check_yubikey` (src/yubikey.rs lines 52-67):
the first output line whose lower-cased text contains the key anywhere, with
the piece between the first and second colon (`split(':').nth(1)`) taken and
trimmed as the value. -/
def parseField (key : String) (stdout : String) : Option String :=
  match (rustLines stdout).find? (fun line => containsSubstr (toLowerStr line) key) with
  | none => none
  | some line =>
    match (splitOnChar ':' line.data).get? 1 with
    | none => none
    | some v => some (String.mk (trimChars v))

/-- `check_slot2` (src/yubikey.rs lines 88-111): run `ykman otp info`; on a
failing exit map device-absence stderr text to `YubiKeyNotFound`, otherwise
`YkmanFailed`; on success report whether some output line contains both
"slot 2" and "programmed" case-insensitively.  The subprocess outcome is the
explicit argument. -/
def check_slot2 (otpRun : RunResult) : Except YkvcError Bool :=
  match otpRun with
  | .execErr msg => .error (.YkmanFailed ("Failed to execute ykman: " ++ msg))
  | .ran out =>
    if !out.statusOk then
      if containsSubstr out.stderr "No YubiKey detected" || containsSubstr out.stderr "not connected" then
        .error .YubiKeyNotFound
      else
        .error (.YkmanFailed ("ykman otp info failed: " ++ out.stderr))
    else
      .ok ((rustLines out.stdout).any
        (fun line => containsSubstr (toLowerStr line) "slot 2" &&
          containsSubstr (toLowerStr line) "programmed"))

/-- `check_yubikey` (src/yubikey.rs lines 33-77): run `ykman info`; on a
failing exit map device-absence stderr text to `YubiKeyNotFound`, otherwise
`YkmanFailed`; on success extract serial and firmware version with
`parseField` (failing with the corresponding `YkmanFailed` parse message when
extraction yields nothing), then query slot-2 status via `check_slot2`.  The
two subprocess outcomes are the explicit arguments. -/
def check_yubikey (infoRun otpRun : RunResult) : Except YkvcError YubiKeyInfo :=
  match infoRun with
  | .execErr msg => .error (.YkmanFailed ("Failed to execute ykman: " ++ msg))
  | .ran out =>
    if !out.statusOk then
      if containsSubstr out.stderr "No YubiKey detected" || containsSubstr out.stderr "not connected" then
        .error .YubiKeyNotFound
      else
        .error (.YkmanFailed ("ykman info failed: " ++ out.stderr))
    else
      match parseField "serial" out.stdout with
      | none => .error (.YkmanFailed "Could not parse serial number")
      | some serial =>
        match parseField "firmware" out.stdout with
        | none => .error (.YkmanFailed "Could not parse firmware version")
        | some firmware_version =>
          match check_slot2 otpRun with
          | .error e => .error e
          | .ok slot2_programmed => .ok ⟨serial, firmware_version, slot2_programmed⟩

/-- The fixed `ykpersonalize` argument list of `program_slot2`
(src/yubikey.rs lines 152-162), ending with the hex-encoded secret. -/
def persArgs (secretHex : String) : List String :=
  ["-2", "-ochal-resp", "-ochal-hmac", "-ohmac-lt64", "-oserial-api-visible", "-y", "-a", secretHex]

/-- Environment of `program_slot2`: the outcome of the `ykpersonalize`
subprocess and the 20 random bytes `rand::thread_rng().fill` would produce
for the generated-secret branch. -/
structure PersEnv where
  run : RunResult
  rand : Fin 20 → Nat

/-- The subprocess phase of `program_slot2` (src/yubikey.rs lines 148-180):
hex-encode the secret, invoke `ykpersonalize`, map an execution failure or a
failing exit to `YkpersonalizeFailed`, and return the secret bytes on
success.  The second component records the invocation that was issued. -/
def runPersonalize (secretBytes : List Nat) (run : RunResult) :
    Except YkvcError (List Nat) × List Invocation :=
  let inv : Invocation := ⟨"ykpersonalize", persArgs (hexEncode secretBytes)⟩
  match run with
  | .execErr msg => (.error (.YkpersonalizeFailed ("Failed to execute ykpersonalize: " ++ msg)), [inv])
  | .ran out =>
    if out.statusOk then (.ok secretBytes, [inv])
    else (.error (.YkpersonalizeFailed ("ykpersonalize failed: " ++ out.stderr)), [inv])

/-- `program_slot2` (src/yubikey.rs lines 135-181): a supplied secret whose
length is not 20 is rejected with `InvalidSecretLength` before anything
else; otherwise the supplied (or freshly generated 20-byte random) secret is
handed to `ykpersonalize`.  The second component is the list of subprocess
invocations issued, in order. -/
def program_slot2 (secret : Option (List Nat)) (env : PersEnv) :
    Except YkvcError (List Nat) × List Invocation :=
  match secret with
  | some s =>
    if s.length ≠ 20 then (.error (.InvalidSecretLength s.length), [])
    else runPersonalize s env.run
  | none => runPersonalize (List.ofFn env.rand) env.run

/-- The result phase of `challenge_response` (src/yubikey.rs lines 202-235):
map an execution failure to `YkchalrespFailed`; on a failing exit pattern
match the stderr text for device absence (`YubiKeyNotFound`) and an
unprogrammed slot (`Slot2NotProgrammed`), defaulting to `YkchalrespFailed`;
on success hex-decode the trimmed standard output, mapping a decode failure
to `YkchalrespFailed`. -/
def challengeResult (run : RunResult) : Except YkvcError (List Nat) :=
  match run with
  | .execErr msg => .error (.YkchalrespFailed ("Failed to execute ykchalresp: " ++ msg))
  | .ran out =>
    if !out.statusOk then
      if containsSubstr out.stderr "No YubiKey detected" || containsSubstr out.stderr "not connected" then
        .error .YubiKeyNotFound
      else if containsSubstr out.stderr "slot 2" && containsSubstr out.stderr "not programmed" then
        .error .Slot2NotProgrammed
      else
        .error (.YkchalrespFailed ("ykchalresp failed: " ++ out.stderr))
    else
      match hexDecode (trimStr out.stdout) with
      | some bytes => .ok bytes
      | none => .error (.YkchalrespFailed "Failed to decode hex response")

/-- `challenge_response` (src/yubikey.rs lines 202-235): invoke `ykchalresp`
with slot selector `-2` and the literal challenge text as the following
argument, and interpret the outcome with `challengeResult`.  The second
component records the single invocation issued. -/
def challenge_response (challenge : String) (run : RunResult) :
    Except YkvcError (List Nat) × Invocation :=
  (challengeResult run, ⟨"ykchalresp", ["-2", challenge]⟩)

/-- The two supported platforms of src/platform/mod.rs (`enum OS`). -/
inductive OS where
  | MacOS
  | Ubuntu
deriving DecidableEq, Repr

/-- Name of the platform-specific secure-erase tool invoked by
`secure_delete`: GNU `shred` on Ubuntu (src/platform/linux.rs), `gshred`
from Homebrew coreutils on macOS (src/platform/macos.rs). -/
def toolName : OS → String
  | .MacOS => "gshred"
  | .Ubuntu => "shred"

/-- Outcome of attempting to run the secure-erase tool on a path: either the
tool could not be executed (carrying the OS error text), or it ran with the
given exit-status success flag, leaving the path in the given existence
state. -/
inductive ShredOutcome where
  | noExec (msg : String)
  | ran (statusOk : Bool) (existsAfter : Bool)
deriving DecidableEq, Repr

/-- The command string rendered into `CommandFailed` errors by
`secure_delete` on both platforms. -/
def shredCmdString (tool path : String) : String :=
  tool ++ " -v -f -z -n 10 -u " ++ path

/-- The common shape of `secure_delete` in src/platform/linux.rs (lines
98-139, tool `shred`) and src/platform/macos.rs (lines 153-194, tool
`gshred`): fail with `FileError` when the path does not exist; run the tool
with ten overwrite passes, a final zero pass, force and unlink; map an
execution failure or a failing exit to `CommandFailed`; after a successful
exit re-check existence and fail with `FileError` when the path survives.
The state argument and the second result component are the existence of the
path before and after the call; the function itself never modifies the
filesystem, only the tool does (via `ShredOutcome.ran`'s recorded state). -/
def shred_secure_delete (tool path : String) (existsBefore : Bool)
    (outcome : ShredOutcome) : Except YkvcError Unit × Bool :=
  if !existsBefore then
    (.error (.FileError ("File does not exist: " ++ path)), existsBefore)
  else
    match outcome with
    | .noExec msg => (.error (.CommandFailed (shredCmdString tool path) msg), existsBefore)
    | .ran statusOk existsAfter =>
      if !statusOk then
        (.error (.CommandFailed (shredCmdString tool path) (tool ++ " failed")), existsAfter)
      else if existsAfter then
        (.error (.FileError ("File still exists after " ++ tool ++ ": " ++ path)), existsAfter)
      else
        (.ok (), existsAfter)

/-- `secure_delete` of src/platform/linux.rs. -/
def linux_secure_delete (path : String) (existsBefore : Bool) (outcome : ShredOutcome) :
    Except YkvcError Unit × Bool :=
  shred_secure_delete "shred" path existsBefore outcome

/-- `secure_delete` of src/platform/macos.rs. -/
def macos_secure_delete (path : String) (existsBefore : Bool) (outcome : ShredOutcome) :
    Except YkvcError Unit × Bool :=
  shred_secure_delete "gshred" path existsBefore outcome

/-- `keyfile::secure_delete` (src/keyfile.rs lines 94-116): resolve the
platform (`detect_os`, whose result is the explicit first argument),
dispatch to the platform-specific deletion, and after a reported success
independently re-check that the path is gone, failing with `FileError` when
it still exists. -/
def keyfile_secure_delete (osResult : Except YkvcError OS) (path : String)
    (existsBefore : Bool) (outcome : ShredOutcome) : Except YkvcError Unit × Bool :=
  match osResult with
  | .error e => (.error e, existsBefore)
  | .ok os =>
    let r :=
      match os with
      | .MacOS => macos_secure_delete path existsBefore outcome
      | .Ubuntu => linux_secure_delete path existsBefore outcome
    match r with
    | (.error e, ex) => (.error e, ex)
    | (.ok _, ex) =>
      if ex then
        (.error (.FileError ("File still exists after secure deletion: " ++ path)), ex)
      else
        (.ok (), ex)

/-- State of the keyfile being produced: its raw byte contents and its
permission bits. -/
structure FileState where
  contents : List Nat
  mode : Nat
deriving DecidableEq, Repr

/-- Environment of `generate_keyfile`: the clock reading for the default
timestamped path (`none` when `duration_since(UNIX_EPOCH)` fails), the
success of each filesystem step, the bytes a failing partial `write_all`
leaves behind, and the permission bits a freshly created file carries before
hardening. -/
structure KfEnv where
  now : Option Nat
  createOk : Bool
  writeOk : Bool
  incompleteBytes : List Nat
  syncOk : Bool
  metaOk : Bool
  initMode : Nat
  setPermOk : Bool

/-- Output-path resolution of `generate_keyfile` (src/keyfile.rs lines
43-52): the caller's path when given, otherwise
`ykvc_keyfile_<unix-seconds>.key` in the current directory, failing with
`Other` when the system time is unavailable. -/
def resolvePath (output_path : Option String) (now : Option Nat) : Except YkvcError String :=
  match output_path with
  | some p => .ok p
  | none =>
    match now with
    | some ts => .ok ("ykvc_keyfile_" ++ toString ts ++ ".key")
    | none => .error (.Other "Failed to get system time")

/-- `generate_keyfile` (src/keyfile.rs lines 36-76): obtain the
challenge-response bytes, resolve the output path, create the file, write
the raw bytes, sync to stable storage, read the file metadata and set the
permission bits to octal 600 (owner read/write only).  Each failing step
maps to `FileError` and leaves the file in the partial state that step
produced.  The second result component is the final state of the file at the
returned path (`none` when it was never created). -/
def generate_keyfile (challenge : String) (output_path : Option String)
    (crRun : RunResult) (env : KfEnv) : Except YkvcError String × Option FileState :=
  match (challenge_response challenge crRun).fst with
  | .error e => (.error e, none)
  | .ok response_bytes =>
    match resolvePath output_path env.now with
    | .error e => (.error e, none)
    | .ok path =>
      if !env.createOk then
        (.error (.FileError "Failed to create keyfile"), none)
      else if !env.writeOk then
        (.error (.FileError "Failed to write keyfile"), some ⟨env.incompleteBytes, env.initMode⟩)
      else if !env.syncOk then
        (.error (.FileError "Failed to sync keyfile"), some ⟨response_bytes, env.initMode⟩)
      else if !env.metaOk then
        (.error (.FileError "Failed to get file metadata"), some ⟨response_bytes, env.initMode⟩)
      else if !env.setPermOk then
        (.error (.FileError "Failed to set file permissions"), some ⟨response_bytes, env.initMode⟩)
      else
        (.ok path, some ⟨response_bytes, 0o600⟩)

/-- Environment of `ensure_dependencies`: the results of the first
dependency check, of the installation attempt, and of the verification
re-check. -/
structure DepsEnv where
  check1 : Except YkvcError (List String)
  install : Except YkvcError Unit
  check2 : Except YkvcError (List String)

/-- `Vec::join` with a ", " separator, as used for the missing-tool lists in
src/main.rs. -/
def joinComma : List String → String
  | [] => ""
  | [s] => s
  | s :: rest => s ++ ", " ++ joinComma rest

/-- `ensure_dependencies` (src/main.rs lines 117-145): list the missing
tools; succeed when none are missing; otherwise install, then re-run the
check, and fail with `InstallationFailed` naming the still-missing tools
when the re-check is non-empty. -/
def ensure_dependencies (env : DepsEnv) : Except YkvcError Unit :=
  match env.check1 with
  | .error e => .error e
  | .ok missing =>
    if missing.isEmpty then .ok ()
    else
      match env.install with
      | .error e => .error e
      | .ok _ =>
        match env.check2 with
        | .error e => .error e
        | .ok still =>
          if still.isEmpty then .ok ()
          else
            .error (.InstallationFailed
              ("Some dependencies are still missing after installation: " ++ joinComma still))

/-- The secret validation of `cmd_slot2_restore` (src/main.rs lines
272-278): hex-decode the trimmed secret, mapping a decode failure to
`InvalidHex`, and reject a decoded byte count other than 20 with
`InvalidSecretLength` carrying that count.  (The decode-failure message of
the source embeds the hex crate's error text; the model carries the fixed
prefix.) -/
def cmd_slot2_restore_validate (secret : String) : Except YkvcError (List Nat) :=
  match hexDecode (trimStr secret) with
  | none => .error (.InvalidHex "Invalid hex string")
  | some secret_bytes =>
    if secret_bytes.length ≠ 20 then .error (.InvalidSecretLength secret_bytes.length)
    else .ok secret_bytes

/-! Helper lemmas about `hexDecodeList`. -/

/-- A successful hex decode produces one byte per two input characters. -/
theorem hexDecodeList_length : ∀ (l : List Char) (bs : List Nat),
    hexDecodeList l = some bs → 2 * bs.length = l.length
  | [], bs, h => by
    simp only [hexDecodeList, Option.some.injEq] at h
    subst h
    rfl
  | [c], bs, h => by
    simp only [hexDecodeList] at h
    cases h
  | c₁ :: c₂ :: rest, bs, h => by
    simp only [hexDecodeList] at h
    cases h1 : hexVal c₁ with
    | none => simp [h1] at h
    | some hi =>
      cases h2 : hexVal c₂ with
      | none => simp [h1, h2] at h
      | some lo =>
        cases h3 : hexDecodeList rest with
        | none => simp [h1, h2, h3] at h
        | some tail =>
          simp only [h1, h2, h3, Option.some.injEq] at h
          subst h
          have ih := hexDecodeList_length rest tail h3
          simp only [List.length_cons]
          omega

/-- Hex decoding fails on an odd-length input. -/
theorem hexDecodeList_odd : ∀ (l : List Char), l.length % 2 = 1 → hexDecodeList l = none
  | [], h => by simp at h
  | [c], _ => rfl
  | c₁ :: c₂ :: rest, h => by
    have hr : rest.length % 2 = 1 := by
      simp only [List.length_cons] at h
      omega
    simp only [hexDecodeList, hexDecodeList_odd rest hr]
    cases hexVal c₁ <;> cases hexVal c₂ <;> rfl

/-- Hex decoding fails when any character is not a hex digit. -/
theorem hexDecodeList_nonhex : ∀ (l : List Char), (∃ c ∈ l, hexVal c = none) →
    hexDecodeList l = none
  | [], h => by simp at h
  | [c], _ => rfl
  | c₁ :: c₂ :: rest, h => by
    simp only [hexDecodeList]
    cases h1 : hexVal c₁ with
    | none => rfl
    | some hi =>
      cases h2 : hexVal c₂ with
      | none => rfl
      | some lo =>
        have hr : ∃ c ∈ rest, hexVal c = none := by
          obtain ⟨c, hc, hn⟩ := h
          simp only [List.mem_cons] at hc
          rcases hc with hc | hc | hc
          · subst hc; rw [h1] at hn; cases hn
          · subst hc; rw [h2] at hn; cases hn
          · exact ⟨c, hc, hn⟩
        rw [hexDecodeList_nonhex rest hr]

/-- Hex decoding succeeds on an even-length all-hex input, with one byte per
two characters. -/
theorem hexDecodeList_total : ∀ (l : List Char), l.all isHexChar = true →
    l.length % 2 = 0 → ∃ bs, hexDecodeList l = some bs ∧ 2 * bs.length = l.length
  | [], _, _ => ⟨[], rfl, rfl⟩
  | [c], _, h2 => by simp at h2
  | c₁ :: c₂ :: rest, h1, h2 => by
    simp only [List.all_cons, Bool.and_eq_true, isHexChar] at h1
    have hr : rest.length % 2 = 0 := by
      simp only [List.length_cons] at h2
      omega
    obtain ⟨bs, hbs, hlen⟩ := hexDecodeList_total rest h1.2.2 hr
    obtain ⟨hi, hhi⟩ := Option.isSome_iff_exists.mp h1.1
    obtain ⟨lo, hlo⟩ := Option.isSome_iff_exists.mp h1.2.1
    refine ⟨(hi * 16 + lo) :: bs, ?_, ?_⟩
    · simp [hexDecodeList, hhi, hlo, hbs]
    · simp only [List.length_cons]
      omega

/-! Claim theorems. -/

/-- Claim C1: for every supplied secret whose length is not 20,
`program_slot2` fails with `InvalidSecretLength` carrying the actual length,
and the subprocess trace is empty — the rejection happens before any device
interaction, for every possible environment. -/
theorem program_slot2_rejects_wrong_length (s : List Nat) (env : PersEnv)
    (h : s.length ≠ 20) :
    program_slot2 (some s) env = (.error (.InvalidSecretLength s.length), []) := by
  simp [program_slot2, h]

/-- Witness for C1: a 1-byte secret is rejected with its length and no
invocation, in a concrete environment. -/
theorem program_slot2_rejects_wrong_length_witness :
    program_slot2 (some [0]) ⟨RunResult.execErr "e", fun _ => 0⟩ =
      (.error (.InvalidSecretLength 1), []) := by
  have h := program_slot2_rejects_wrong_length [0] ⟨RunResult.execErr "e", fun _ => 0⟩ (by decide)
  simpa using h

/-- Claim C6: for every supplied secret of length exactly 20,
`program_slot2` proceeds to the `ykpersonalize` invocation and, when the
tool exits successfully, returns exactly the supplied bytes. -/
theorem program_slot2_returns_supplied_secret (s : List Nat) (env : PersEnv)
    (out : ProcOut) (h : s.length = 20) (hr : env.run = .ran out)
    (hok : out.statusOk = true) :
    program_slot2 (some s) env =
      (.ok s, [⟨"ykpersonalize", persArgs (hexEncode s)⟩]) := by
  simp [program_slot2, h, runPersonalize, hr, hok]

/-- Witness for C6: a concrete 20-byte secret is returned unmodified after a
successful tool run, with the personalization invocation recorded. -/
theorem program_slot2_returns_supplied_secret_witness :
    program_slot2 (some (List.replicate 20 0))
        ⟨RunResult.ran ⟨true, "", ""⟩, fun _ => 0⟩ =
      (.ok (List.replicate 20 0),
        [⟨"ykpersonalize", persArgs (hexEncode (List.replicate 20 0))⟩]) :=
  program_slot2_returns_supplied_secret (List.replicate 20 0)
    ⟨RunResult.ran ⟨true, "", ""⟩, fun _ => 0⟩ ⟨true, "", ""⟩ (by decide) rfl rfl

/-- Claim C10: `challenge_response` places no precondition on the challenge
string: every challenge, the empty string included, is forwarded unmodified
as the literal argument after the slot selector, and the outcome is
determined solely by the tool run (two calls with the same run outcome and
different challenges produce the same result). -/
theorem challenge_response_no_precondition (c c' : String) (run : RunResult) :
    (challenge_response c run).snd = ⟨"ykchalresp", ["-2", c]⟩ ∧
    (challenge_response c run).fst = (challenge_response c' run).fst :=
  ⟨rfl, rfl⟩

/-- Counterexample to claim C2 as stated: when the tool exits successfully
with stdout "aabb", `challenge_response` succeeds with a 2-byte response —
no independent 20-byte check is performed on the decoded output. -/
theorem challenge_response_success_not_always_20 :
    (challenge_response "c" (.ran ⟨true, "aabb", ""⟩)).fst = .ok [170, 187] ∧
    ([170, 187] : List Nat).length ≠ 20 := by
  exact ⟨rfl, by decide⟩

/-- Claim C2 (amended): whenever `challenge_response` succeeds, the returned
bytes are the hex-decoding of the tool's whitespace-trimmed stdout, one byte
per two hex characters; in particular the response has length exactly 20
when the trimmed stdout consists of 40 hex characters. -/
theorem challenge_response_hex_passthrough (c : String) (out : ProcOut)
    (bs : List Nat) (hok : out.statusOk = true)
    (hdec : hexDecode (trimStr out.stdout) = some bs) :
    (challenge_response c (.ran out)).fst = .ok bs ∧
    2 * bs.length = (trimStr out.stdout).data.length ∧
    ((trimStr out.stdout).data.length = 40 → bs.length = 20) := by
  refine ⟨?_, ?_, ?_⟩
  · simp [challenge_response, challengeResult, hok, hdec]
  · exact hexDecodeList_length _ _ hdec
  · intro h40
    have := hexDecodeList_length _ _ hdec
    omega

/-- Witness for the amended C2: a 40-hex-character stdout yields the 20
decoded bytes. -/
theorem challenge_response_hex_passthrough_witness :
    (challenge_response "c"
        (.ran ⟨true, "00112233445566778899aabbccddeeff00112233", ""⟩)).fst =
      .ok [0, 17, 34, 51, 68, 85, 102, 119, 136, 153,
           170, 187, 204, 221, 238, 255, 0, 17, 34, 51] ∧
    2 * ([0, 17, 34, 51, 68, 85, 102, 119, 136, 153,
          170, 187, 204, 221, 238, 255, 0, 17, 34, 51] : List Nat).length =
      (trimStr "00112233445566778899aabbccddeeff00112233").data.length ∧
    ((trimStr "00112233445566778899aabbccddeeff00112233").data.length = 40 →
      ([0, 17, 34, 51, 68, 85, 102, 119, 136, 153,
        170, 187, 204, 221, 238, 255, 0, 17, 34, 51] : List Nat).length = 20) :=
  challenge_response_hex_passthrough "c"
    ⟨true, "00112233445566778899aabbccddeeff00112233", ""⟩
    [0, 17, 34, 51, 68, 85, 102, 119, 136, 153,
     170, 187, 204, 221, 238, 255, 0, 17, 34, 51] rfl (by rfl)

/-- Counterexample to claim C3 as stated: on stdout whose only line
mentioning "serial" is "Unserialized: 12:34", the claimed rule ("a line
whose key matches serial", value = "the trimmed remainder after the first
colon", parse error when the key is absent) predicts a parse failure — no
line has the key "serial", and the remainder after the first colon would be
"12:34".  The code instead matches "serial" anywhere in the line and takes
only the piece between the first and second colon, returning serial "12". -/
theorem check_yubikey_contains_not_key_match :
    check_yubikey
        (.ran ⟨true, "Unserialized: 12:34\nFirmware version: 5.4.3", ""⟩)
        (.ran ⟨true, "Slot 2: programmed", ""⟩) =
      .ok ⟨"12", "5.4.3", true⟩ := by
  rfl

/-- Claim C3 (amended): `check_yubikey` extracts serial and firmware from
the first stdout line that contains "serial" / "firmware" case-insensitively
anywhere in the line, taking as value the trimmed text between the first and
second colon of that line; when no line contains the key (or the matching
line has no colon) it fails with the corresponding parse error.  In
particular stdout reporting serial "12345678" and firmware "5.4.3" with a
programmed slot 2 yields exactly that device info. -/
theorem check_yubikey_parse_rule (infoOut otpOut : ProcOut)
    (hok : infoOut.statusOk = true) :
    (∀ (serialLine fwLine : String) (sv fv : List Char) (b : Bool),
      (rustLines infoOut.stdout).find?
          (fun l => containsSubstr (toLowerStr l) "serial") = some serialLine →
      (splitOnChar ':' serialLine.data).get? 1 = some sv →
      (rustLines infoOut.stdout).find?
          (fun l => containsSubstr (toLowerStr l) "firmware") = some fwLine →
      (splitOnChar ':' fwLine.data).get? 1 = some fv →
      check_slot2 (.ran otpOut) = .ok b →
      check_yubikey (.ran infoOut) (.ran otpOut) =
        .ok ⟨String.mk (trimChars sv), String.mk (trimChars fv), b⟩) ∧
    (parseField "serial" infoOut.stdout = none →
      check_yubikey (.ran infoOut) (.ran otpOut) =
        .error (.YkmanFailed "Could not parse serial number")) ∧
    (∀ (serial : String), parseField "serial" infoOut.stdout = some serial →
      parseField "firmware" infoOut.stdout = none →
      check_yubikey (.ran infoOut) (.ran otpOut) =
        .error (.YkmanFailed "Could not parse firmware version")) := by
  refine ⟨?_, ?_, ?_⟩
  · intro serialLine fwLine sv fv b hs hsv hf hfv hb
    simp only [List.get?_eq_getElem?] at hsv hfv
    simp [check_yubikey, parseField, hok, hs, hsv, hf, hfv, hb]
  · intro hnone
    simp [check_yubikey, hok, hnone]
  · intro serial hsome hnone
    simp [check_yubikey, hok, hsome, hnone]

/-- Witness for the amended C3: the end-to-end scenario (serial "12345678",
firmware "5.4.3", slot 2 programmed) and the two parse-error branches, each
at concrete output. -/
theorem check_yubikey_parse_rule_witness :
    check_yubikey (.ran ⟨true, "Serial: 12345678\nFirmware version: 5.4.3", ""⟩)
        (.ran ⟨true, "Slot 2: programmed", ""⟩) = .ok ⟨"12345678", "5.4.3", true⟩ ∧
    check_yubikey (.ran ⟨true, "nothing here", ""⟩) (.ran ⟨true, "", ""⟩) =
      .error (.YkmanFailed "Could not parse serial number") ∧
    check_yubikey (.ran ⟨true, "Serial: 12345678", ""⟩) (.ran ⟨true, "", ""⟩) =
      .error (.YkmanFailed "Could not parse firmware version") := by
  refine ⟨?_, ?_, ?_⟩
  · exact (check_yubikey_parse_rule
      ⟨true, "Serial: 12345678\nFirmware version: 5.4.3", ""⟩
      ⟨true, "Slot 2: programmed", ""⟩ rfl).1
      "Serial: 12345678" "Firmware version: 5.4.3"
      " 12345678".data " 5.4.3".data true rfl rfl rfl rfl rfl
  · exact (check_yubikey_parse_rule ⟨true, "nothing here", ""⟩ ⟨true, "", ""⟩ rfl).2.1 rfl
  · exact (check_yubikey_parse_rule ⟨true, "Serial: 12345678", ""⟩ ⟨true, "", ""⟩ rfl).2.2
      "12345678" rfl rfl

/-- Claim C4: `secure_delete` on a non-existent path fails with `FileError`
(never a silent no-op) for every platform and environment; on an existing
path with a successful tool exit the existence re-check makes a surviving
path a `FileError` and otherwise the call succeeds with the path
non-existent. -/
theorem secure_delete_existence_checks (os : OS) (path : String)
    (outcome : ShredOutcome) :
    ((keyfile_secure_delete (.ok os) path false outcome).fst =
      .error (.FileError ("File does not exist: " ++ path))) ∧
    (outcome = .ran true true →
      keyfile_secure_delete (.ok os) path true outcome =
        (.error (.FileError ("File still exists after " ++ toolName os ++ ": " ++ path)),
          true)) ∧
    (outcome = .ran true false →
      keyfile_secure_delete (.ok os) path true outcome = (.ok (), false)) := by
  refine ⟨?_, ?_, ?_⟩
  · cases os <;> rfl
  · intro h; subst h; cases os <;> rfl
  · intro h; subst h; cases os <;> rfl

/-- Witness for C4: the three branches at concrete inputs on the Ubuntu
platform. -/
theorem secure_delete_existence_checks_witness :
    (keyfile_secure_delete (.ok OS.Ubuntu) "k.key" false (.ran true false)).fst =
      .error (.FileError ("File does not exist: " ++ "k.key")) ∧
    keyfile_secure_delete (.ok OS.Ubuntu) "k.key" true (.ran true true) =
      (.error (.FileError ("File still exists after " ++ toolName OS.Ubuntu ++ ": " ++ "k.key")),
        true) ∧
    keyfile_secure_delete (.ok OS.Ubuntu) "k.key" true (.ran true false) = (.ok (), false) :=
  ⟨(secure_delete_existence_checks OS.Ubuntu "k.key" (.ran true false)).1,
   (secure_delete_existence_checks OS.Ubuntu "k.key" (.ran true true)).2.1 rfl,
   (secure_delete_existence_checks OS.Ubuntu "k.key" (.ran true false)).2.2 rfl⟩

/-- Claim C9: on an existing path, when the secure-erase tool exits
non-zero, `secure_delete` fails with `CommandFailed` (carrying the tool's
command line) on every platform, and performs no filesystem modification
itself: the final existence state is exactly whatever the tool left behind
(`ea`), so a failing tool that left the file in place leaves its existence
unchanged from before the call (second conjunct). -/
theorem secure_delete_tool_failure_atomic (os : OS) (path : String) (ea : Bool) :
    keyfile_secure_delete (.ok os) path true (.ran false ea) =
      (.error (.CommandFailed (toolName os ++ " -v -f -z -n 10 -u " ++ path)
        (toolName os ++ " failed")), ea) ∧
    (keyfile_secure_delete (.ok os) path true (.ran false true)).snd = true := by
  cases os <;> exact ⟨rfl, rfl⟩

/-- Claim C5: round-trip — for every response byte sequence and destination
path, when `generate_keyfile` succeeds it returns the given path and the
file at that path holds exactly the response bytes with permission bits
octal 600 (owner read/write only; 384 % 64 = 0 states that every group and
other bit is cleared). -/
theorem generate_keyfile_roundtrip (challenge path : String) (crRun : RunResult)
    (env : KfEnv) (bs : List Nat) (r : String) (st : Option FileState)
    (hcr : (challenge_response challenge crRun).fst = .ok bs)
    (h : generate_keyfile challenge (some path) crRun env = (.ok r, st)) :
    r = path ∧ st = some ⟨bs, 0o600⟩ ∧ (0o600 : Nat) % 64 = 0 := by
  unfold generate_keyfile at h
  rw [hcr] at h
  simp only [resolvePath] at h
  cases h1 : env.createOk <;> cases h2 : env.writeOk <;> cases h3 : env.syncOk <;>
    cases h4 : env.metaOk <;> cases h5 : env.setPermOk <;>
      simp [h1, h2, h3, h4, h5] at h
  exact ⟨h.1.symm, h.2.symm, by decide⟩

/-- Witness for C5: with every filesystem step succeeding and a 40-zero hex
response, the keyfile at the requested path holds the 20 zero bytes with
mode octal 600. -/
theorem generate_keyfile_roundtrip_witness :
    ("k.key" : String) = "k.key" ∧
    (some ⟨List.replicate 20 0, 0o600⟩ : Option FileState) =
      some ⟨List.replicate 20 0, 0o600⟩ ∧
    (0o600 : Nat) % 64 = 0 :=
  generate_keyfile_roundtrip "c" "k.key"
    (.ran ⟨true, "0000000000000000000000000000000000000000", ""⟩)
    ⟨some 0, true, true, [], true, true, 0o644, true⟩
    (List.replicate 20 0) "k.key" (some ⟨List.replicate 20 0, 0o600⟩)
    (by rfl) (by rfl)

/-- Counterexample to claim C7 as stated: the string " 00" has odd length
and contains a non-hex character, so the claim predicts an invalid-hex
failure; the code trims surrounding whitespace before decoding, decodes the
surviving "00" to one byte, and fails with `InvalidSecretLength 1`
instead. -/
theorem restore_validate_trims_first :
    cmd_slot2_restore_validate " 00" = .error (.InvalidSecretLength 1) := by
  rfl

/-- Claim C7 (amended): measured on the secret after trimming surrounding
whitespace — a 40-hex-character secret decodes to exactly 20 bytes and
passes validation; an odd-length or non-hex-character secret fails with
invalid-hex; a well-formed even-length hex secret of any other length fails
with `InvalidSecretLength` carrying the decoded byte count (half the trimmed
length). -/
theorem restore_validate_hex_rules (s : String) :
    ((trimStr s).data.length = 40 → (trimStr s).data.all isHexChar = true →
      ∃ bs, cmd_slot2_restore_validate s = .ok bs ∧ bs.length = 20) ∧
    ((trimStr s).data.length % 2 = 1 →
      cmd_slot2_restore_validate s = .error (.InvalidHex "Invalid hex string")) ∧
    ((∃ c ∈ (trimStr s).data, hexVal c = none) →
      cmd_slot2_restore_validate s = .error (.InvalidHex "Invalid hex string")) ∧
    ((trimStr s).data.all isHexChar = true → (trimStr s).data.length % 2 = 0 →
      (trimStr s).data.length ≠ 40 →
      cmd_slot2_restore_validate s =
        .error (.InvalidSecretLength ((trimStr s).data.length / 2))) := by
  refine ⟨?_, ?_, ?_, ?_⟩
  · intro h40 hall
    obtain ⟨bs, hbs, hlen⟩ := hexDecodeList_total _ hall (by omega)
    have hl : bs.length = 20 := by omega
    refine ⟨bs, ?_, hl⟩
    simp [cmd_slot2_restore_validate, hexDecode, hbs, hl]
  · intro hodd
    simp [cmd_slot2_restore_validate, hexDecode, hexDecodeList_odd _ hodd]
  · intro hnon
    simp [cmd_slot2_restore_validate, hexDecode, hexDecodeList_nonhex _ hnon]
  · intro hall heven h40
    obtain ⟨bs, hbs, hlen⟩ := hexDecodeList_total _ hall heven
    have hne : bs.length ≠ 20 := by omega
    have hq : bs.length = (trimStr s).data.length / 2 := by omega
    rw [← hq]
    simp [cmd_slot2_restore_validate, hexDecode, hbs, hne]

/-- Witness for the amended C7: the four branches at concrete secrets — 40
zeros pass with 20 bytes, "abc" (odd) and "zz" (non-hex) fail with
invalid-hex, "00" (well-formed, 1 byte) fails with the decoded count. -/
theorem restore_validate_hex_rules_witness :
    (∃ bs, cmd_slot2_restore_validate "0000000000000000000000000000000000000000" =
        .ok bs ∧ bs.length = 20) ∧
    cmd_slot2_restore_validate "abc" = .error (.InvalidHex "Invalid hex string") ∧
    cmd_slot2_restore_validate "zz" = .error (.InvalidHex "Invalid hex string") ∧
    cmd_slot2_restore_validate "00" =
      .error (.InvalidSecretLength ((trimStr "00").data.length / 2)) :=
  ⟨(restore_validate_hex_rules "0000000000000000000000000000000000000000").1 rfl rfl,
   (restore_validate_hex_rules "abc").2.1 rfl,
   (restore_validate_hex_rules "zz").2.2.1 (by decide),
   (restore_validate_hex_rules "00").2.2.2 rfl rfl (by decide)⟩

/-- Claim C8: when the first dependency check reports missing tools, the
installation succeeds, and the re-check still reports missing tools,
`ensure_dependencies` fails with `InstallationFailed` naming exactly the
still-missing tools — the non-empty re-check result is never ignored, and
the message distinguishes this verification failure from an
installation-command failure (which would have surfaced as the installer's
own error instead). -/
theorem ensure_dependencies_post_install_check (env : DepsEnv)
    (missing still : List String) (h1 : env.check1 = .ok missing)
    (h2 : missing ≠ []) (h3 : env.install = .ok ())
    (h4 : env.check2 = .ok still) (h5 : still ≠ []) :
    ensure_dependencies env =
      .error (.InstallationFailed
        ("Some dependencies are still missing after installation: " ++ joinComma still)) := by
  cases missing with
  | nil => exact absurd rfl h2
  | cons a t =>
    cases still with
    | nil => exact absurd rfl h5
    | cons b u =>
      simp [ensure_dependencies, h1, h3, h4]

/-- Witness for C8: with "ykman" missing before and after a successful
installation, the caller receives the installation failure naming it. -/
theorem ensure_dependencies_post_install_check_witness :
    ensure_dependencies ⟨.ok ["ykman"], .ok (), .ok ["ykman"]⟩ =
      .error (.InstallationFailed
        ("Some dependencies are still missing after installation: " ++ joinComma ["ykman"])) :=
  ensure_dependencies_post_install_check ⟨.ok ["ykman"], .ok (), .ok ["ykman"]⟩
    ["ykman"] ["ykman"] rfl (by decide) rfl rfl (by decide)

end Ykvc
